import Mathlib

/-!
Verification of face-ai-detector: the `Home` component of `src/pages/index.js`.

A shallow embedding of the React component `Home`: its state variables, the
handlers that write them (`loadModels`, `startVideo`, `detectFace`), the
detection effect that installs `detectFace` on a timer, and the text panel
that is rendered from the state.

Conventions of the embedding

* JavaScript numbers (confidence scores, probabilities, ages) are exact
  rationals: the values the library returns are finite, and for finite
  values the sign of `b - a` is the sign of the exact difference.
* `Date.now()` is an integer number of milliseconds.
* The face-api library, the camera and the DOM are the environment: what
  they return in one run of a handler is an input of that run.
* A function closes over the variables of the render in which it was
  created; the closure of `detectFace` is therefore recorded together with
  the `lastDetection` of that render.
-/

namespace FaceAiDetector

/-! ## JavaScript built-ins used by the component -/

/-- JavaScript `Array.prototype.sort(comparefn)`: a stable sort that puts `a` before `b`
when `comparefn(a, b) < 0`, after it when `comparefn(a, b) > 0`, and keeps
their order when it is `0`. -/
def sort {α : Type} (comparefn : α → α → ℚ) (xs : List α) : List α :=
  xs.insertionSort (fun a b => comparefn a b ≤ 0)

/-- The integer `n` for which `n / 10 ^ f - x` is as close to zero as
possible, the larger `n` when there are two (step 11.a of
`Number.prototype.toFixed`), for `x ≥ 0`. -/
def nearestScaled (x : ℚ) (f : ℕ) : ℕ :=
  (Int.floor (x * 10 ^ f + 1 / 2)).toNat

/-- Steps 11.b-11.c of `Number.prototype.toFixed`: the digits of `n`, padded
with leading zeros to `f + 1` characters, with a point before the last `f`. -/
def fixedDigits (n f : ℕ) : String :=
  let m := if n = 0 then ['0'] else Nat.toDigits 10 n
  if f = 0 then String.mk m
  else
    let k := m.length
    let m := if k ≤ f then List.replicate (f + 1 - k) '0' ++ m else m
    let k := m.length
    String.mk (m.take (k - f) ++ ['.'] ++ m.drop (k - f))

/-- JavaScript `Number.prototype.toFixed(f)` of ECMA-262 for a finite number `x`.
`numberToString` is `Number::toString`, which the algorithm falls back to
when the magnitude is at least `10 ^ 21`. -/
def toFixed (numberToString : ℚ → String) (x : ℚ) (f : ℕ) : String :=
  let s := if x < 0 then "-" else ""
  let x := if x < 0 then -x else x
  let m := if (10 : ℚ) ^ 21 ≤ x then numberToString x
    else fixedDigits (nearestScaled x f) f
  s ++ m

/-! ## Data model -/

/-- The `detection` field of a result: the box and its confidence score. -/
structure FaceDetection where
  score : ℚ
  box : ℚ × ℚ × ℚ × ℚ
  deriving DecidableEq

/-- One element of the array returned by
`detectAllFaces(..).withFaceLandmarks().withAgeAndGender().withFaceExpressions()`.
`expressions` is the list `Object.entries(detection.expressions)`. -/
structure Detection where
  detection : FaceDetection
  landmarks : List (ℚ × ℚ)
  age : ℚ
  gender : String
  expressions : List (String × ℚ)
  deriving DecidableEq

/-- The object `{ ...detection, timestamp: Date.now() }` kept in the
`lastDetection` state variable. -/
structure LastDetection extends Detection where
  timestamp : ℤ
  deriving DecidableEq

/-- The object kept in the `infoWajah` state variable. -/
structure InfoWajah where
  umur : String
  gender : String
  emosi : String
  deriving DecidableEq

/-- A rejection reason or thrown value, as far as the handlers read it. -/
structure JsError where
  name : String
  message : String
  deriving DecidableEq

/-- The `useState` variables of `Home`. -/
structure HomeState where
  isLoading : Bool
  infoWajah : Option InfoWajah
  error : Option String
  lastDetection : Option LastDetection
  isVideoReady : Bool
  isCameraStarted : Bool
  isMounted : Bool
  deriving DecidableEq

/-- What is on the canvas overlay: the shapes drawn since the last
`clearRect`. The detection is the one passed to `resizeResults`. -/
inductive Shape where
  | detectionBox (d : Detection)
  | faceLandmarks (d : Detection)
  deriving DecidableEq

/-- The component between two events: the module constant `faceapi`
(whether `require` produced the library), the state of the last render, the
timer callback if one is installed, and the canvas.
`interval = some ld` means `setInterval(detectFace, 33)` is active and the
variable `lastDetection` inside that `detectFace` is `ld`. -/
structure Config where
  faceapi : Bool
  state : HomeState
  interval : Option (Option LastDetection)
  canvas : List Shape
  deriving DecidableEq

/-- The values of the `useState` initialisers. -/
def HomeState.init : HomeState where
  isLoading := true
  infoWajah := none
  error := none
  lastDetection := none
  isVideoReady := false
  isCameraStarted := false
  isMounted := false

/-- The component before its first effect has run. -/
def Config.init (faceapi : Bool) : Config where
  faceapi := faceapi
  state := HomeState.init
  interval := none
  canvas := []

/-! ## `detectFace` -/

/-- What one run of `detectFace` observes of its environment. -/
structure Frame where
  /-- whether `videoRef.current` is not null -/
  videoRef : Bool
  /-- whether `canvasRef.current` is not null -/
  canvasRef : Bool
  /-- value of `videoRef.current.readyState` -/
  readyState : ℕ
  /-- the awaited detection chain: the results, or the message of the
  error it rejected with -/
  detections : Except String (List Detection)
  /-- whether `canvasRef.current.getContext("2d")` is not null -/
  ctx : Bool
  /-- the message of the error thrown by `resizeResults`, if it throws -/
  drawError : Option String
  /-- the message the engine gives the `TypeError` of `undefined[0]` -/
  typeErrorMessage : String
  /-- value of `Date.now()` -/
  now : ℤ

/-- The writes one run of `detectFace` performs, in program order. -/
inductive Action where
  | clearRect
  | setLastDetection (ld : LastDetection)
  | drawDetections (d : Detection)
  | drawFaceLandmarks (d : Detection)
  | setInfoWajah (i : Option InfoWajah)
  | setError (e : Option String)
  deriving DecidableEq

/-- Expression `Object.entries(expressions).sort((a, b) => b[1] - a[1])[0][0]`: the
key of the first entry after sorting by descending probability. With no
entry, `[0]` is `undefined` and the second `[0]` throws. -/
def ekspresiDominan (typeErrorMessage : String) (expressions : List (String × ℚ)) :
    Except String String :=
  match sort (fun a b => b.2 - a.2) expressions with
  | [] => .error typeErrorMessage
  | e :: _ => .ok e.1

/-- Expression `detections.sort((a, b) => b.detection.score - a.detection.score)[0]`;
`none` is `undefined`. -/
def topDetection (detections : List Detection) : Option Detection :=
  (sort (fun a b => b.detection.score - a.detection.score) detections).head?

/-- The `catch` block of `detectFace`. -/
def detectFaceCatch (message : String) : List Action :=
  [.setError (some ("Error deteksi wajah: " ++ message))]

/-- The two drawing calls and the `setInfoWajah` that show a detection `d`
(shared shape of the face-found branch and of the grace-window branch),
followed by `after`; an exception on the way goes to the `catch` block. -/
def showDetection (numberToString : ℚ → String) (f : Frame) (d : Detection)
    (after : List Action) : List Action :=
  match f.drawError with
  | some message => detectFaceCatch message
  | none =>
    [.drawDetections d, .drawFaceLandmarks d] ++
    match ekspresiDominan f.typeErrorMessage d.expressions with
    | .error message => detectFaceCatch message
    | .ok emosi =>
      [.setInfoWajah (some
          { umur := toFixed numberToString d.age 1, gender := d.gender, emosi := emosi })]
        ++ after

/-- One run of `detectFace`, whose free variable `lastDetection` has the
value given: the writes it performs. -/
def detectFace (numberToString : ℚ → String) (lastDetection : Option LastDetection)
    (f : Frame) : List Action :=
  if !f.videoRef || !f.canvasRef then []
  else if f.readyState ≠ 4 then []
  else
    match f.detections with
    | .error message => detectFaceCatch message
    | .ok detections =>
      if !f.ctx then []
      else
        .clearRect ::
        match topDetection detections with
        | some detection =>
          .setLastDetection { detection with timestamp := f.now } ::
            showDetection numberToString f detection [.setError none]
        | none =>
          match lastDetection with
          | some ld =>
            if f.now - ld.timestamp < 1000 then
              showDetection numberToString f ld.toDetection []
            else [.setInfoWajah none]
          | none => [.setInfoWajah none]

/-! ## The other handlers -/

/-- The message `startVideo` passes to `setError` in its `catch` block. -/
def startVideoCatch (err : JsError) : String :=
  let errMsg := "Gagal mengakses kamera: " ++ err.message
  if err.name = "NotAllowedError" then
    "Izin kamera ditolak. Harap izinkan akses kamera di pengaturan browser."
  else if err.name = "NotFoundError" then
    "Tidak ada kamera yang ditemukan di perangkat ini."
  else errMsg

/-- What can happen to the component. -/
inductive Event where
  /-- the effects of the first render: the two refs are looked at and
  `loadModels` is started -/
  | mount (videoRef canvasRef : Bool)
  /-- the four `loadFromUri` promises resolved -/
  | modelsLoaded
  /-- one of the `loadFromUri` promises rejected -/
  | modelsFailed (err : JsError)
  /-- a click on the button "Mulai Kamera"; `getUserMedia` tells whether
  `navigator.mediaDevices.getUserMedia` exists -/
  | clickStart (getUserMedia : Bool)
  /-- the `getUserMedia` promise resolved; `videoRef` tells whether
  `videoRef.current` is not null -/
  | cameraGranted (videoRef : Bool)
  /-- the `getUserMedia` promise rejected -/
  | cameraRejected (err : JsError)
  /-- the video element fired `loadedmetadata` -/
  | loadedMetadata
  /-- the promise of `video.play()` rejected -/
  | playRejected (err : JsError)
  /-- the timer fired and the run of `detectFace` it started completed -/
  | tick (f : Frame)

/-- A render with the new state `s`, followed by the detection effect: its
dependency list is `[faceapi, isVideoReady, isMounted]`, so it runs again
only when one of these changed; it then clears the old timer and, when all
three hold, installs a `detectFace` that sees the `lastDetection` of this
render. -/
def commit (c : Config) (s : HomeState) : Config :=
  if s.isVideoReady = c.state.isVideoReady ∧ s.isMounted = c.state.isMounted then
    { c with state := s }
  else
    { c with
      state := s
      interval :=
        if !c.faceapi || !s.isVideoReady || !s.isMounted then none
        else some s.lastDetection }

/-- The effect of one write of `detectFace` on the state and the canvas. -/
def perform (c : Config) : Action → Config
  | .clearRect => { c with canvas := [] }
  | .setLastDetection ld => { c with state := { c.state with lastDetection := some ld } }
  | .drawDetections d => { c with canvas := c.canvas ++ [.detectionBox d] }
  | .drawFaceLandmarks d => { c with canvas := c.canvas ++ [.faceLandmarks d] }
  | .setInfoWajah i => { c with state := { c.state with infoWajah := i } }
  | .setError e => { c with state := { c.state with error := e } }

/-- One event. The writes of `detectFace` leave `isVideoReady` and
`isMounted` alone, so the detection effect does not run again after a tick. -/
def step (numberToString : ℚ → String) (c : Config) : Event → Config
  | .mount videoRef canvasRef =>
    let s := c.state
    let s := if videoRef && canvasRef then { s with isMounted := true } else s
    let s := if !c.faceapi then { s with error := some "face-api.js tidak tersedia" } else s
    commit c s
  | .modelsLoaded =>
    if c.faceapi then commit c { c.state with isLoading := false } else c
  | .modelsFailed err =>
    if c.faceapi then
      commit c { c.state with error := some ("Gagal memuat model: " ++ err.message) }
    else c
  | .clickStart getUserMedia =>
    if c.state.isCameraStarted then c
    else
      let s := { c.state with isCameraStarted := true }
      if !getUserMedia then
        commit c { s with
          error := some
            "Kamera tidak didukung oleh browser ini atau aplikasi tidak berjalan di HTTPS/localhost" }
      else commit c s
  | .cameraGranted videoRef =>
    if videoRef then c
    else commit c { c.state with error := some "Video element tidak tersedia" }
  | .cameraRejected err =>
    commit c { c.state with error := some (startVideoCatch err) }
  | .loadedMetadata =>
    commit c { c.state with isVideoReady := true, error := none }
  | .playRejected err =>
    commit c { c.state with error := some ("Gagal memainkan video: " ++ err.message) }
  | .tick f =>
    match c.interval with
    | none => c
    | some lastDetection => (detectFace numberToString lastDetection f).foldl perform c

/-- The component after a sequence of events, from the initial render. -/
def run (numberToString : ℚ → String) (faceapi : Bool) (events : List Event) : Config :=
  events.foldl (step numberToString) (Config.init faceapi)

/-! ## The text panel -/

/-- A `<p>` element of the panel: its class and its text content. -/
structure Paragraph where
  className : String
  text : String
  deriving DecidableEq

/-- A string in a condition: `null` and the empty string are falsy. -/
def truthy : Option String → Bool
  | none => false
  | some s => s != ""

/-- The children of the panel `<div>` in the JSX that `Home` returns. -/
def panel (s : HomeState) : List Paragraph :=
  if truthy s.error then
    [⟨"text-red-400 text-lg", s.error.getD ""⟩]
  else if s.isLoading then
    [⟨"text-yellow-400 text-lg", "Memuat model AI wajah..."⟩]
  else
    match s.infoWajah with
    | some infoWajah =>
      [⟨"text-lg", "Umur: " ++ infoWajah.umur ++ " tahun"⟩,
       ⟨"text-lg", "Jenis Kelamin: " ++
          (if infoWajah.gender = "male" then "Laki-laki" else "Perempuan")⟩,
       ⟨"text-lg", "Ekspresi: " ++ infoWajah.emosi⟩]
    | none =>
      [⟨"text-gray-400 italic text-lg", "Tidak ada wajah terdeteksi."⟩]

/-! ## Predicates used in the statements -/

/-- The run of `detectFace` is not skipped and its detection call resolves
with the results `ds`: both refs are set, the video has `readyState` 4,
and the canvas gives a 2D context. -/
def Frame.reaches (f : Frame) (ds : List Detection) : Prop :=
  f.videoRef = true ∧ f.canvasRef = true ∧ f.readyState = 4 ∧
    f.detections = .ok ds ∧ f.ctx = true

/-- The number written by a string of decimal digits, most significant
first; `none` when a character is not a digit. -/
def digitsValue (cs : List Char) : Option ℕ :=
  cs.foldl
    (fun acc ch => acc.bind fun a =>
      if ch.isDigit then some (a * 10 + (ch.toNat - '0'.toNat)) else none)
    (some 0)

/-- The value of a numeral with exactly one digit after the decimal point:
one or more digits, a point, one digit. Any other string has no value. -/
def readFixed1 (s : String) : Option ℚ :=
  match s.data.reverse with
  | b :: '.' :: a =>
    if a = [] then none
    else
      match digitsValue a.reverse, digitsValue [b] with
      | some whole, some tenths => some ((whole : ℚ) + (tenths : ℚ) / 10)
      | _, _ => none
  | _ => none

/-- The timer and the state variables agree: either no timer is installed
and nothing has been detected yet, or the installed `detectFace` was created
in a render whose `lastDetection` was `null`, and the two state variables the
detection effect depends on are `true`. -/
def TimerInv (c : Config) : Prop :=
  (c.interval = none ∧ c.state.lastDetection = none) ∨
    (c.interval = some none ∧ c.state.isVideoReady = true ∧ c.state.isMounted = true)

/-- The `error` state variable is `null` or a non-empty string. -/
def ErrorInv (c : Config) : Prop :=
  ∀ msg, c.state.error = some msg → msg ≠ ""

deriving instance DecidableEq for Except

instance (f : Frame) (ds : List Detection) : Decidable (f.reaches ds) := by
  unfold Frame.reaches; infer_instance

instance (c : Config) : Decidable (TimerInv c) := by
  unfold TimerInv; infer_instance

instance (c : Config) : Decidable (ErrorInv c) :=
  decidable_of_iff (c.state.error ≠ some "")
    ⟨fun h msg hm hempty => h (by rw [hm, hempty]), fun h heq => h "" heq rfl⟩

/-! ## Concrete inputs -/

/-- A detection result: a 30.25-year-old face, mostly happy. -/
def exampleFace : Detection where
  detection := { score := 9 / 10, box := (100, 80, 200, 200) }
  landmarks := [(150, 130), (250, 130)]
  age := 121 / 4
  gender := "male"
  expressions := [("neutral", 1 / 10), ("happy", 4 / 5), ("sad", 1 / 10)]

/-- A frame in which nothing fails and the library finds `ds` at time `now`. -/
def exampleFrame (ds : List Detection) (now : ℤ) : Frame where
  videoRef := true
  canvasRef := true
  readyState := 4
  detections := .ok ds
  ctx := true
  drawError := none
  typeErrorMessage := "Cannot read properties of undefined"
  now := now

/-- A component whose models are loaded and whose timer was installed in a
render with the given `lastDetection`. -/
def exampleConfig (lastDetection : Option LastDetection) : Config where
  faceapi := true
  state :=
    { isLoading := false
      infoWajah := none
      error := none
      lastDetection := lastDetection
      isVideoReady := true
      isCameraStarted := true
      isMounted := true }
  interval := some lastDetection
  canvas := []

/-- A component whose timer is running and whose `error` was set by an
earlier failure. -/
def erroredConfig (message : String) : Config where
  faceapi := true
  state :=
    { isLoading := false
      infoWajah := none
      error := some message
      lastDetection := none
      isVideoReady := true
      isCameraStarted := true
      isMounted := true }
  interval := some none
  canvas := []

/-- The events of a normal start: mount, models loaded, click on the button,
camera granted, metadata loaded. -/
def startEvents : List Event :=
  [.mount true true, .modelsLoaded, .clickStart true, .cameraGranted true, .loadedMetadata]

/-- A frame whose detection call rejects with the given message. -/
def failingFrame (message : String) (now : ℤ) : Frame where
  videoRef := true
  canvasRef := true
  readyState := 4
  detections := .error message
  ctx := true
  drawError := none
  typeErrorMessage := "Cannot read properties of undefined"
  now := now

/-- The events of a start in which the camera is running before the models
are loaded: the first tick fails inside the library, then the models load. -/
def earlyCameraEvents : List Event :=
  [.mount true true, .clickStart true, .cameraGranted true, .loadedMetadata,
    .tick (failingFrame "load model before inference" 0), .modelsLoaded]

/-- A second detection result, with a higher score than `exampleFace`: a
41-year-old face, mostly neutral. -/
def secondFace : Detection where
  detection := { score := 19 / 20, box := (400, 90, 180, 180) }
  landmarks := [(440, 140), (530, 140)]
  age := 41
  gender := "female"
  expressions := [("happy", 1 / 5), ("neutral", 7 / 10), ("sad", 1 / 10)]

/-- A frame in which the library finds two faces, the lower-scored one first. -/
def pairFrame : Frame :=
  exampleFrame [exampleFace, secondFace] 0

/-- The events of a start in which the camera is running while the models
are still loading, and nothing has failed. -/
def loadingEvents : List Event :=
  [.mount true true, .clickStart true, .cameraGranted true, .loadedMetadata]

/-! ## Sorting and the selected detection -/

theorem sort_perm {α : Type} (comparefn : α → α → ℚ) (xs : List α) :
    (sort comparefn xs).Perm xs :=
  List.perm_insertionSort _ xs

theorem sort_desc_head {α : Type} (key : α → ℚ) (xs : List α) (e : α) (rest : List α)
    (h : sort (fun a b => key b - key a) xs = e :: rest) :
    e ∈ xs ∧ ∀ x ∈ xs, key x ≤ key e := by
  have hperm := sort_perm (fun a b => key b - key a) xs
  haveI : IsTotal α (fun a b => key b - key a ≤ 0) :=
    ⟨fun a b => by
      rcases le_total (key a) (key b) with hab | hab
      · exact Or.inr (by linarith)
      · exact Or.inl (by linarith)⟩
  haveI : IsTrans α (fun a b => key b - key a ≤ 0) :=
    ⟨fun a b c hab hbc => by
      have h1 : key b - key a ≤ 0 := hab
      have h2 : key c - key b ≤ 0 := hbc
      show key c - key a ≤ 0
      linarith⟩
  have hsorted : List.Sorted (fun a b => key b - key a ≤ 0) (sort (fun a b => key b - key a) xs) :=
    List.sorted_insertionSort _ xs
  rw [h] at hperm hsorted
  refine ⟨hperm.mem_iff.mp (List.mem_cons_self _ _), fun x hx => ?_⟩
  rcases List.mem_cons.mp (hperm.mem_iff.mpr hx) with rfl | hmem
  · exact le_refl _
  · have := List.rel_of_sorted_cons hsorted x hmem
    linarith

theorem sort_eq_nil {α : Type} (comparefn : α → α → ℚ) (xs : List α) :
    sort comparefn xs = [] ↔ xs = [] := by
  constructor
  · intro h
    have := sort_perm comparefn xs
    rw [h] at this
    exact List.Perm.nil_eq this |>.symm
  · rintro rfl; rfl

theorem topDetection_spec (ds : List Detection) (d : Detection)
    (h : topDetection ds = some d) :
    d ∈ ds ∧ ∀ x ∈ ds, x.detection.score ≤ d.detection.score := by
  unfold topDetection at h
  cases hs : sort (fun a b : Detection => b.detection.score - a.detection.score) ds with
  | nil => rw [hs] at h; simp at h
  | cons e rest =>
    rw [hs] at h
    simp only [List.head?_cons, Option.some.injEq] at h
    subst h
    exact sort_desc_head (fun x : Detection => x.detection.score) ds e rest hs

theorem topDetection_eq_none (ds : List Detection) : topDetection ds = none ↔ ds = [] := by
  unfold topDetection
  rw [List.head?_eq_none_iff, sort_eq_nil]

theorem topDetection_of_ne_nil (ds : List Detection) (h : ds ≠ []) :
    ∃ d, topDetection ds = some d := by
  cases hd : topDetection ds with
  | none => exact absurd ((topDetection_eq_none ds).mp hd) h
  | some d => exact ⟨d, rfl⟩

theorem ekspresiDominan_spec (m : String) (es : List (String × ℚ)) (h : es ≠ []) :
    ∃ k p, ekspresiDominan m es = .ok k ∧ (k, p) ∈ es ∧ ∀ e ∈ es, e.2 ≤ p := by
  unfold ekspresiDominan
  cases hs : sort (fun a b : String × ℚ => b.2 - a.2) es with
  | nil => exact absurd ((sort_eq_nil _ es).mp hs) h
  | cons e rest =>
    obtain ⟨hmem, hmax⟩ := sort_desc_head (fun x : String × ℚ => x.2) es e rest hs
    exact ⟨e.1, e.2, rfl, hmem, hmax⟩

theorem tick_found (nts : ℚ → String) (c : Config) (cap : Option LastDetection) (f : Frame)
    (ds : List Detection) (d : Detection) (k : String)
    (hi : c.interval = some cap) (hr : f.reaches ds) (ht : topDetection ds = some d)
    (hdraw : f.drawError = none)
    (hk : ekspresiDominan f.typeErrorMessage d.expressions = .ok k) :
    step nts c (.tick f) =
      { c with
        canvas := [.detectionBox d, .faceLandmarks d]
        state := { c.state with
          lastDetection := some { d with timestamp := f.now }
          infoWajah := some ⟨toFixed nts d.age 1, d.gender, k⟩
          error := none } } := by
  obtain ⟨h1, h2, h3, h4, h5⟩ := hr
  simp [step, hi, detectFace, h1, h2, h3, h4, h5, ht, showDetection, hdraw, hk, perform]

theorem tick_grace (nts : ℚ → String) (c : Config) (ld : LastDetection) (f : Frame)
    (k : String)
    (hi : c.interval = some (some ld)) (hr : f.reaches [])
    (hfresh : f.now - ld.timestamp < 1000)
    (hdraw : f.drawError = none)
    (hk : ekspresiDominan f.typeErrorMessage ld.expressions = .ok k) :
    step nts c (.tick f) =
      { c with
        canvas := [.detectionBox ld.toDetection, .faceLandmarks ld.toDetection]
        state := { c.state with
          infoWajah := some ⟨toFixed nts ld.age 1, ld.gender, k⟩ } } := by
  obtain ⟨h1, h2, h3, h4, h5⟩ := hr
  have ht : topDetection [] = none := rfl
  simp [step, hi, detectFace, h1, h2, h3, h4, h5, ht, showDetection, hdraw, hk, perform, hfresh]

theorem tick_none (nts : ℚ → String) (c : Config) (cap : Option LastDetection) (f : Frame)
    (hi : c.interval = some cap) (hr : f.reaches [])
    (hold : ∀ ld, cap = some ld → 1000 ≤ f.now - ld.timestamp) :
    step nts c (.tick f) =
      { c with canvas := [], state := { c.state with infoWajah := none } } := by
  obtain ⟨h1, h2, h3, h4, h5⟩ := hr
  have ht : topDetection [] = none := rfl
  cases cap with
  | none => simp [step, hi, detectFace, h1, h2, h3, h4, h5, ht, perform]
  | some ld =>
    have := hold ld rfl
    have hn : ¬ (f.now - ld.timestamp < 1000) := by omega
    simp [step, hi, detectFace, h1, h2, h3, h4, h5, ht, perform, hn]

/-! ## Printing a number with one decimal -/

theorem toDigitsCore_acc (b : ℕ) : ∀ (fuel n : ℕ) (acc : List Char),
    Nat.toDigitsCore b fuel n acc = Nat.toDigitsCore b fuel n [] ++ acc := by
  intro fuel
  induction fuel with
  | zero => intro n acc; simp [Nat.toDigitsCore]
  | succ fuel ih =>
    intro n acc
    simp only [Nat.toDigitsCore]
    split
    · simp
    · rw [ih (n / b) (Nat.digitChar (n % b) :: acc), ih (n / b) [Nat.digitChar (n % b)]]
      simp

theorem toDigitsCore_fuel (b : ℕ) (hb : 2 ≤ b) : ∀ (fuel fuel2 n : ℕ),
    n < fuel → n < fuel2 →
    Nat.toDigitsCore b fuel n [] = Nat.toDigitsCore b fuel2 n [] := by
  intro fuel
  induction fuel with
  | zero => intro fuel2 n h; omega
  | succ fuel ih =>
    intro fuel2 n h1 h2
    cases fuel2 with
    | zero => omega
    | succ fuel2 =>
      simp only [Nat.toDigitsCore]
      split
      · rfl
      · rename_i hq
        have hlt : n / b < n := Nat.div_lt_self (by
          rcases Nat.eq_zero_or_pos n with h0 | h0
          · subst h0; simp at hq
          · exact h0) hb
        rw [toDigitsCore_acc b fuel, toDigitsCore_acc b fuel2,
          ih fuel2 (n / b) (by omega) (by omega)]

theorem toDigits_of_lt (n : ℕ) (h : n < 10) : Nat.toDigits 10 n = [Nat.digitChar n] := by
  have h1 : n / 10 = 0 := Nat.div_eq_of_lt h
  have h2 : n % 10 = n := Nat.mod_eq_of_lt h
  simp [Nat.toDigits, Nat.toDigitsCore, h1, h2]

theorem toDigits_of_ge (n : ℕ) (h : 10 ≤ n) :
    Nat.toDigits 10 n = Nat.toDigits 10 (n / 10) ++ [Nat.digitChar (n % 10)] := by
  have h1 : n / 10 ≠ 0 := by omega
  have hl : Nat.toDigits 10 n =
      Nat.toDigitsCore 10 n (n / 10) [Nat.digitChar (n % 10)] := by
    simp [Nat.toDigits, Nat.toDigitsCore, h1]
  rw [hl, toDigitsCore_acc 10 n, toDigitsCore_fuel 10 (by norm_num) n (n / 10 + 1) (n / 10)
    (by omega) (by omega)]
  rfl

theorem digitChar_isDigit (n : ℕ) (h : n < 10) :
    (Nat.digitChar n).isDigit = true ∧ (Nat.digitChar n).toNat - '0'.toNat = n := by
  interval_cases n <;> exact ⟨rfl, rfl⟩

theorem digitsValue_snoc (cs : List Char) (v n : ℕ) (h : digitsValue cs = some v)
    (hn : n < 10) : digitsValue (cs ++ [Nat.digitChar n]) = some (v * 10 + n) := by
  unfold digitsValue at h ⊢
  have h2 : (Nat.digitChar n).toNat - 48 = n := (digitChar_isDigit n hn).2
  rw [List.foldl_append, h]
  simp [(digitChar_isDigit n hn).1, h2]

theorem digitsValue_toDigits (n : ℕ) : digitsValue (Nat.toDigits 10 n) = some n := by
  induction n using Nat.strong_induction_on with
  | _ n ih =>
    rcases Nat.lt_or_ge n 10 with h | h
    · rw [toDigits_of_lt n h]
      have := digitsValue_snoc [] 0 n rfl h
      simpa using this
    · rw [toDigits_of_ge n h,
        digitsValue_snoc _ (n / 10) (n % 10) (ih (n / 10) (by omega)) (Nat.mod_lt _ (by norm_num))]
      congr 1
      omega

theorem toDigits_ne_nil (n : ℕ) : Nat.toDigits 10 n ≠ [] := by
  rcases Nat.lt_or_ge n 10 with h | h
  · rw [toDigits_of_lt n h]; simp
  · rw [toDigits_of_ge n h]; simp

theorem toDigits_length_of_ge (n : ℕ) (h : 10 ≤ n) : 2 ≤ (Nat.toDigits 10 n).length := by
  rw [toDigits_of_ge n h]
  have := List.length_pos.mpr (toDigits_ne_nil (n / 10))
  simp
  omega

theorem fixedDigits_one (n : ℕ) :
    fixedDigits n 1 = String.mk (Nat.toDigits 10 (n / 10) ++ ['.', Nat.digitChar (n % 10)]) := by
  rcases Nat.lt_or_ge n 10 with h | h
  · have h1 : n / 10 = 0 := Nat.div_eq_of_lt h
    have h2 : n % 10 = n := Nat.mod_eq_of_lt h
    rw [h1, h2]
    by_cases h0 : n = 0
    · subst h0; rfl
    · simp [fixedDigits, h0, toDigits_of_lt n h]
      rfl
  · have h0 : n ≠ 0 := by omega
    have hlen := toDigits_length_of_ge n h
    have hk : ¬ (Nat.toDigits 10 n).length ≤ 1 := by omega
    simp only [fixedDigits, h0, if_false, hk, one_ne_zero]
    rw [toDigits_of_ge n h]
    simp

theorem readFixed1_fixedDigits (n : ℕ) : readFixed1 (fixedDigits n 1) = some ((n : ℚ) / 10) := by
  rw [fixedDigits_one]
  have hb := digitsValue_snoc [] 0 (n % 10) rfl (Nat.mod_lt _ (by norm_num))
  simp only [List.nil_append, zero_mul, zero_add] at hb
  unfold readFixed1
  simp [toDigits_ne_nil, digitsValue_toDigits, hb]
  have : (n : ℚ) = ((n / 10 : ℕ) : ℚ) * 10 + ((n % 10 : ℕ) : ℚ) := by
    exact_mod_cast (Nat.div_add_mod' n 10).symm
  rw [this]
  ring

theorem toFixed_of_nonneg (nts : ℚ → String) (x : ℚ) (f : ℕ) (h0 : 0 ≤ x)
    (h21 : x < 10 ^ 21) : toFixed nts x f = fixedDigits (nearestScaled x f) f := by
  have hneg : ¬ x < 0 := not_lt.mpr h0
  have hbig : ¬ (10 : ℚ) ^ 21 ≤ x := not_le.mpr h21
  simp only [toFixed, hneg, if_false, hbig]
  exact String.ext (by simp)

theorem nearestScaled_bounds (x : ℚ) (h0 : 0 ≤ x) :
    ((nearestScaled x 1 : ℕ) : ℚ) ≤ x * 10 + 1 / 2 ∧
      x * 10 + 1 / 2 < ((nearestScaled x 1 : ℕ) : ℚ) + 1 := by
  have hfl : (0 : ℤ) ≤ Int.floor (x * 10 ^ 1 + 1 / 2) := Int.floor_nonneg.mpr (by positivity)
  have hcast : ((nearestScaled x 1 : ℕ) : ℚ) = ((Int.floor (x * 10 ^ 1 + 1 / 2) : ℤ) : ℚ) := by
    unfold nearestScaled
    have := Int.toNat_of_nonneg hfl
    exact_mod_cast congrArg (fun z : ℤ => (z : ℚ)) this
  rw [hcast]
  have h1 := Int.floor_le (x * 10 ^ 1 + 1 / 2)
  have h2 := Int.lt_floor_add_one (x * 10 ^ 1 + 1 / 2)
  simp only [pow_one] at h1 h2 ⊢
  exact ⟨h1, h2⟩

theorem nearestScaled_nearest (x : ℚ) (h0 : 0 ≤ x) :
    |((nearestScaled x 1 : ℕ) : ℚ) / 10 - x| ≤ 1 / 20 ∧
    (∀ m : ℤ, |((nearestScaled x 1 : ℕ) : ℚ) / 10 - x| ≤ |(m : ℚ) / 10 - x|) ∧
    (∀ m : ℤ, |(m : ℚ) / 10 - x| = |((nearestScaled x 1 : ℕ) : ℚ) / 10 - x| →
      m ≤ ((nearestScaled x 1 : ℕ) : ℤ)) := by
  obtain ⟨h1, h2⟩ := nearestScaled_bounds x h0
  generalize nearestScaled x 1 = n at h1 h2
  have habs : |(n : ℚ) / 10 - x| ≤ 1 / 20 := by
    rw [abs_le]; constructor <;> linarith
  have hfar : ∀ m : ℤ, ((n : ℤ) < m → 1 / 20 < |(m : ℚ) / 10 - x|) ∧
      (m < (n : ℤ) → 1 / 20 ≤ |(m : ℚ) / 10 - x|) := by
    intro m
    constructor
    · intro hm
      have hm1 : ((n : ℤ) : ℚ) + 1 ≤ (m : ℚ) := by exact_mod_cast hm
      have hm2 : ((n : ℤ) : ℚ) = (n : ℚ) := by norm_cast
      have : 1 / 20 < (m : ℚ) / 10 - x := by linarith
      exact lt_of_lt_of_le this (le_abs_self _)
    · intro hm
      have hm1 : (m : ℚ) + 1 ≤ ((n : ℤ) : ℚ) := by exact_mod_cast hm
      have hm2 : ((n : ℤ) : ℚ) = (n : ℚ) := by norm_cast
      have : 1 / 20 ≤ -((m : ℚ) / 10 - x) := by linarith
      exact le_trans this (neg_le_abs _)
  refine ⟨habs, fun m => ?_, fun m hm => ?_⟩
  · rcases lt_trichotomy m (n : ℤ) with hlt | heq | hgt
    · exact le_trans habs ((hfar m).2 hlt)
    · subst heq; simp
    · exact le_trans habs (le_of_lt ((hfar m).1 hgt))
  · by_contra hcon
    have := (hfar m).1 (not_le.mp hcon)
    rw [hm] at this
    exact absurd habs (not_le.mpr this)

/-! ## Error strings -/

theorem head_data_append (a b : String) (ch : Char) (rest : List Char)
    (h : a.data = ch :: rest) : (a ++ b).data.head? = some ch := by
  rw [String.data_append, h]; rfl

theorem append_ne_empty (a b : String) (ch : Char) (rest : List Char)
    (h : a.data = ch :: rest) : a ++ b ≠ "" := by
  intro he
  have := head_data_append a b ch rest h
  rw [he] at this
  simp at this

theorem izin_ne_gagal (m : String) :
    "Izin kamera ditolak. Harap izinkan akses kamera di pengaturan browser." ≠
      "Gagal mengakses kamera: " ++ m := by
  intro h
  have h1 := head_data_append "Gagal mengakses kamera: " m 'G' _ rfl
  rw [← h] at h1
  simp at h1

theorem tidak_ne_gagal (m : String) :
    "Tidak ada kamera yang ditemukan di perangkat ini." ≠
      "Gagal mengakses kamera: " ++ m := by
  intro h
  have h1 := head_data_append "Gagal mengakses kamera: " m 'G' _ rfl
  rw [← h] at h1
  simp at h1

/-! ## Invariants of the step function -/

/-- What one run of `detectFace` leaves alone and what it can write to `error`. -/
theorem tick_frame (nts : ℚ → String) (c : Config) (f : Frame) :
    (step nts c (.tick f)).interval = c.interval ∧
    (step nts c (.tick f)).faceapi = c.faceapi ∧
    (step nts c (.tick f)).state.isVideoReady = c.state.isVideoReady ∧
    (step nts c (.tick f)).state.isMounted = c.state.isMounted ∧
    (step nts c (.tick f)).state.isLoading = c.state.isLoading ∧
    (step nts c (.tick f)).state.isCameraStarted = c.state.isCameraStarted ∧
    ((step nts c (.tick f)).state.error = c.state.error ∨
      (step nts c (.tick f)).state.error = none ∨
      ∃ msg, (step nts c (.tick f)).state.error = some ("Error deteksi wajah: " ++ msg)) ∧
    (c.interval = none → step nts c (.tick f) = c) := by
  cases hi : c.interval with
  | none => simp [step, hi]
  | some cap =>
    simp only [step, hi, detectFace, showDetection, detectFaceCatch]
    repeat' split
    all_goals simp [perform, hi]

theorem commit_state (c : Config) (s : HomeState) : (commit c s).state = s := by
  unfold commit; split <;> rfl

theorem commit_timerInv (c : Config) (s : HomeState) (h : TimerInv c)
    (hld : s.lastDetection = c.state.lastDetection)
    (hv : c.state.isVideoReady = true → s.isVideoReady = true)
    (hm : c.state.isMounted = true → s.isMounted = true) : TimerInv (commit c s) := by
  unfold commit
  split
  · rename_i hdeps
    rcases h with ⟨h1, h2⟩ | ⟨h1, h2, h3⟩
    · exact Or.inl ⟨h1, by rw [← h2]; exact hld⟩
    · exact Or.inr ⟨h1, by rw [← h2]; exact hdeps.1, by rw [← h3]; exact hdeps.2⟩
  · rename_i hdeps
    rcases h with ⟨h1, h2⟩ | ⟨h1, h2, h3⟩
    · by_cases hall : (!c.faceapi || !s.isVideoReady || !s.isMounted) = true
      · left
        simp only [hall, if_true]
        exact ⟨trivial, by rw [← h2]; exact hld⟩
      · right
        simp only [hall]
        simp only [Bool.or_eq_true, Bool.not_eq_true', not_or, Bool.not_eq_false] at hall
        refine ⟨?_, hall.1.2, hall.2⟩
        simp [hld, h2]
    · exact absurd ⟨(hv h2).trans h2.symm, (hm h3).trans h3.symm⟩ hdeps

theorem commit_faceapi (c : Config) (s : HomeState) : (commit c s).faceapi = c.faceapi := by
  unfold commit; split <;> rfl

theorem startVideoCatch_ne_empty (err : JsError) : startVideoCatch err ≠ "" := by
  unfold startVideoCatch
  split
  · decide
  · split
    · decide
    · exact append_ne_empty _ _ 'G' _ rfl

theorem commit_preserves (c : Config) (s : HomeState)
    (hld : s.lastDetection = c.state.lastDetection)
    (hv : c.state.isVideoReady = true → s.isVideoReady = true)
    (hm : c.state.isMounted = true → s.isMounted = true)
    (herr : ErrorInv c → ∀ msg, s.error = some msg → msg ≠ "") :
    (commit c s).faceapi = c.faceapi ∧
    (commit c s).state.lastDetection = c.state.lastDetection ∧
    (c.state.isVideoReady = true → (commit c s).state.isVideoReady = true) ∧
    (c.state.isMounted = true → (commit c s).state.isMounted = true) ∧
    (TimerInv c → TimerInv (commit c s)) ∧
    (ErrorInv c → ErrorInv (commit c s)) := by
  refine ⟨commit_faceapi c s, ?_, ?_, ?_, fun h => commit_timerInv c s h hld hv hm, ?_⟩
  · rw [commit_state]; exact hld
  · rw [commit_state]; exact hv
  · rw [commit_state]; exact hm
  · intro h msg hmsg
    rw [commit_state] at hmsg
    exact herr h msg hmsg

theorem step_of_not_tick (nts : ℚ → String) (c : Config) (e : Event)
    (he : ∀ f, e ≠ .tick f) :
    (step nts c e).faceapi = c.faceapi ∧
    (step nts c e).state.lastDetection = c.state.lastDetection ∧
    (c.state.isVideoReady = true → (step nts c e).state.isVideoReady = true) ∧
    (c.state.isMounted = true → (step nts c e).state.isMounted = true) ∧
    (TimerInv c → TimerInv (step nts c e)) ∧
    (ErrorInv c → ErrorInv (step nts c e)) := by
  have hsame : (c.faceapi = c.faceapi ∧ c.state.lastDetection = c.state.lastDetection ∧
      (c.state.isVideoReady = true → c.state.isVideoReady = true) ∧
      (c.state.isMounted = true → c.state.isMounted = true) ∧
      (TimerInv c → TimerInv c) ∧ (ErrorInv c → ErrorInv c)) :=
    ⟨rfl, rfl, id, id, id, id⟩
  cases e with
  | tick f => exact absurd rfl (he f)
  | mount videoRef canvasRef =>
    simp only [step]
    apply commit_preserves
    · split <;> split <;> rfl
    · split <;> split <;> simp
    · split <;> split <;> simp
    · intro h msg
      split
      · intro hmsg
        simp only [Option.some.injEq] at hmsg
        rw [← hmsg]; decide
      · split
        · exact h msg
        · exact h msg
  | modelsLoaded =>
    simp only [step]
    split
    · exact commit_preserves _ _ rfl id id (fun h => h)
    · exact hsame
  | modelsFailed err =>
    simp only [step]
    split
    · refine commit_preserves _ _ rfl id id (fun _ msg hmsg => ?_)
      simp only [Option.some.injEq] at hmsg
      rw [← hmsg]; exact append_ne_empty _ _ 'G' _ rfl
    · exact hsame
  | clickStart getUserMedia =>
    simp only [step]
    split
    · exact hsame
    · split
      · refine commit_preserves _ _ rfl id id (fun _ msg hmsg => ?_)
        simp only [Option.some.injEq] at hmsg
        rw [← hmsg]; decide
      · exact commit_preserves _ _ rfl id id (fun h => h)
  | cameraGranted videoRef =>
    simp only [step]
    split
    · exact hsame
    · refine commit_preserves _ _ rfl id id (fun _ msg hmsg => ?_)
      simp only [Option.some.injEq] at hmsg
      rw [← hmsg]; decide
  | cameraRejected err =>
    simp only [step]
    refine commit_preserves _ _ rfl id id (fun _ msg hmsg => ?_)
    simp only [Option.some.injEq] at hmsg
    rw [← hmsg]; exact startVideoCatch_ne_empty err
  | loadedMetadata =>
    simp only [step]
    refine commit_preserves _ _ rfl (fun _ => rfl) id (fun _ msg hmsg => ?_)
    simp at hmsg
  | playRejected err =>
    simp only [step]
    refine commit_preserves _ _ rfl id id (fun _ msg hmsg => ?_)
    simp only [Option.some.injEq] at hmsg
    rw [← hmsg]; exact append_ne_empty _ _ 'G' _ rfl

theorem step_tick_inv (nts : ℚ → String) (c : Config) (f : Frame) :
    (TimerInv c → TimerInv (step nts c (.tick f))) ∧
    (ErrorInv c → ErrorInv (step nts c (.tick f))) := by
  obtain ⟨hi, -, hv, hm, -, -, herr, hnone⟩ := tick_frame nts c f
  constructor
  · rintro (⟨h1, h2⟩ | ⟨h1, h2, h3⟩)
    · rw [hnone h1]; exact Or.inl ⟨h1, h2⟩
    · exact Or.inr ⟨hi.trans h1, hv.trans h2, hm.trans h3⟩
  · intro h msg hmsg
    rcases herr with he | he | ⟨m, he⟩
    · rw [he] at hmsg; exact h msg hmsg
    · rw [he] at hmsg; simp at hmsg
    · rw [he] at hmsg
      simp only [Option.some.injEq] at hmsg
      rw [← hmsg]; exact append_ne_empty _ _ 'E' _ rfl

theorem step_inv (nts : ℚ → String) (c : Config) (e : Event) :
    (TimerInv c → TimerInv (step nts c e)) ∧ (ErrorInv c → ErrorInv (step nts c e)) := by
  by_cases he : ∃ f, e = .tick f
  · obtain ⟨f, rfl⟩ := he
    exact step_tick_inv nts c f
  · have := step_of_not_tick nts c e (fun f hf => he ⟨f, hf⟩)
    exact ⟨this.2.2.2.2.1, this.2.2.2.2.2⟩

theorem run_snoc (nts : ℚ → String) (fa : Bool) (es : List Event) (e : Event) :
    run nts fa (es ++ [e]) = step nts (run nts fa es) e := by
  simp [run, List.foldl_append]

theorem run_inv (nts : ℚ → String) (fa : Bool) (es : List Event) :
    TimerInv (run nts fa es) ∧ ErrorInv (run nts fa es) := by
  induction es using List.reverseRecOn with
  | nil =>
    refine ⟨Or.inl ⟨rfl, rfl⟩, fun msg hmsg => ?_⟩
    simp [run, Config.init, HomeState.init] at hmsg
  | append_singleton es e ih =>
    rw [run_snoc]
    exact ⟨(step_inv nts _ e).1 ih.1, (step_inv nts _ e).2 ih.2⟩

theorem tick_lastDetection_unchanged (nts : ℚ → String) (c : Config) (f : Frame)
    (h : ∀ ds, f.reaches ds → ds = []) :
    (step nts c (.tick f)).state.lastDetection = c.state.lastDetection := by
  cases hi : c.interval with
  | none => simp [step, hi]
  | some cap =>
    by_cases hr : ∃ ds, f.reaches ds
    · obtain ⟨ds, hr⟩ := hr
      have hds := h ds hr
      subst hds
      obtain ⟨h1, h2, h3, h4, h5⟩ := hr
      have ht : topDetection [] = none := rfl
      simp only [step, hi, detectFace, showDetection, detectFaceCatch, h1, h2, h3, h4, h5, ht]
      repeat' split
      all_goals simp [perform]
    · simp only [step, hi, detectFace, showDetection, detectFaceCatch]
      repeat' split
      all_goals try simp [perform]
      all_goals
        exfalso
        refine hr ⟨_, ?_, ?_, ?_, ‹f.detections = Except.ok _›, ?_⟩ <;> simp_all

theorem run_startEvents (nts : ℚ → String) :
    run nts true startEvents = exampleConfig none := by
  rfl

/-! ## Evaluation of the example run -/

theorem exampleFrame_reaches (ds : List Detection) (now : ℤ) :
    (exampleFrame ds now).reaches ds := ⟨rfl, rfl, rfl, rfl, rfl⟩

theorem topDetection_singleton (d : Detection) : topDetection [d] = some d := rfl

theorem tick_shown (nts : ℚ → String) (c : Config) (cap : Option LastDetection) (f : Frame)
    (ds : List Detection) (d : Detection)
    (hi : c.interval = some cap) (hr : f.reaches ds) (hdraw : f.drawError = none)
    (hshown : topDetection ds = some d ∨
      (ds = [] ∧ ∃ ld, cap = some ld ∧ f.now - ld.timestamp < 1000 ∧ ld.toDetection = d))
    (hne : d.expressions ≠ []) :
    ∃ k p, (step nts c (.tick f)).state.infoWajah = some ⟨toFixed nts d.age 1, d.gender, k⟩ ∧
      (k, p) ∈ d.expressions ∧ ∀ e ∈ d.expressions, e.2 ≤ p := by
  obtain ⟨k, p, hk, hmem, hmax⟩ := ekspresiDominan_spec f.typeErrorMessage d.expressions hne
  refine ⟨k, p, ?_, hmem, hmax⟩
  rcases hshown with ht | ⟨rfl, ld, rfl, hfresh, rfl⟩
  · rw [tick_found nts c cap f ds d k hi hr ht hdraw hk]
  · rw [tick_grace nts c ld f k hi hr hfresh hdraw hk]


theorem tick_found_lastDetection (nts : ℚ → String) (c : Config) (cap : Option LastDetection)
    (f : Frame) (ds : List Detection) (d : Detection)
    (hi : c.interval = some cap) (hr : f.reaches ds) (ht : topDetection ds = some d) :
    (step nts c (.tick f)).state.lastDetection = some { d with timestamp := f.now } ∧
    (∀ sh ∈ (step nts c (.tick f)).canvas, sh = .detectionBox d ∨ sh = .faceLandmarks d) ∧
    ((f.drawError ≠ none ∨ d.expressions = []) →
      (step nts c (.tick f)).state.infoWajah = c.state.infoWajah) := by
  obtain ⟨h1, h2, h3, h4, h5⟩ := hr
  cases hdraw : f.drawError with
  | some msg =>
    simp [step, hi, detectFace, h1, h2, h3, h4, h5, ht, showDetection, hdraw, perform,
      detectFaceCatch]
  | none =>
    cases hk : ekspresiDominan f.typeErrorMessage d.expressions with
    | error msg =>
      simp [step, hi, detectFace, h1, h2, h3, h4, h5, ht, showDetection, hdraw, hk, perform,
        detectFaceCatch]
    | ok k =>
      have hne : d.expressions ≠ [] := by
        intro he
        rw [he] at hk
        simp [ekspresiDominan, sort] at hk
      simp [step, hi, detectFace, h1, h2, h3, h4, h5, ht, showDetection, hdraw, hk, perform, hne]


theorem exampleFace_emosi (m : String) :
    ekspresiDominan m exampleFace.expressions = .ok "happy" := by
  simp [ekspresiDominan, sort, exampleFace, List.insertionSort, List.orderedInsert]
  norm_num

theorem exampleFace_umur (nts : ℚ → String) : toFixed nts exampleFace.age 1 = "30.3" := by
  have h0 : (0 : ℚ) ≤ exampleFace.age := by norm_num [exampleFace]
  have h21 : exampleFace.age < 10 ^ 21 := by norm_num [exampleFace]
  have hn : nearestScaled exampleFace.age 1 = 303 := by
    have : exampleFace.age * 10 ^ 1 + 1 / 2 = ((303 : ℤ) : ℚ) := by norm_num [exampleFace]
    unfold nearestScaled
    rw [this, Int.floor_intCast]
    rfl
  rw [toFixed_of_nonneg nts _ 1 h0 h21, hn]
  decide

theorem run_first_face (nts : ℚ → String) :
    run nts true (startEvents ++ [.tick (exampleFrame [exampleFace] 0)]) =
      { exampleConfig none with
        canvas := [.detectionBox exampleFace, .faceLandmarks exampleFace]
        state := { (exampleConfig none).state with
          lastDetection := some { exampleFace with timestamp := 0 }
          infoWajah := some ⟨"30.3", "male", "happy"⟩
          error := none } } := by
  rw [run_snoc, run_startEvents,
    tick_found nts (exampleConfig none) none (exampleFrame [exampleFace] 0) [exampleFace]
      exampleFace "happy" rfl (exampleFrame_reaches _ _) rfl rfl (exampleFace_emosi _),
    exampleFace_umur]
  rfl


theorem step_cameraRejected_error (nts : ℚ → String) (c : Config) (err : JsError) :
    (step nts c (.cameraRejected err)).state.error = some (startVideoCatch err) := by
  simp only [step, commit_state]

theorem tick_skipped (nts : ℚ → String) (c : Config) (f : Frame) (ds : List Detection)
    (hdet : f.detections = .ok ds)
    (hskip : ¬ (f.videoRef = true ∧ f.canvasRef = true ∧ f.readyState = 4 ∧ f.ctx = true)) :
    step nts c (.tick f) = c := by
  cases hi : c.interval with
  | none => simp [step, hi]
  | some cap =>
    simp only [step, hi, detectFace, hdet]
    by_cases h1 : f.videoRef = true
    · by_cases h2 : f.canvasRef = true
      · by_cases h3 : f.readyState = 4
        · have h4 : f.ctx = false := by
            cases h : f.ctx
            · rfl
            · exact absurd ⟨h1, h2, h3, h⟩ hskip
          simp [h1, h2, h3, h4]
        · simp [h1, h2, h3]
      · simp [h1, h2]
    · simp [h1]

/-- In every run the installed `detectFace` reads a `lastDetection` that is
`null`, so a tick that finds no face always sets `infoWajah` to `null`. -/
theorem tick_no_face_of_run (nts : ℚ → String) (fa : Bool) (es : List Event) (f : Frame)
    (hi : (run nts fa es).interval ≠ none) (hr : f.reaches []) :
    (run nts fa es).interval = some none ∧
      (step nts (run nts fa es) (.tick f)).state.infoWajah = none := by
  have hcap : (run nts fa es).interval = some none := by
    rcases (run_inv nts fa es).1 with ⟨h, -⟩ | ⟨h, -, -⟩
    · exact absurd h hi
    · exact h
  refine ⟨hcap, ?_⟩
  rw [tick_none nts _ none f hcap hr (fun ld h => by simp at h)]

theorem top_of_pair (d : Detection) (hmem : d ∈ [exampleFace, secondFace])
    (hmax : ∀ x ∈ [exampleFace, secondFace], x.detection.score ≤ d.detection.score) :
    d = secondFace := by
  rcases List.mem_cons.mp hmem with h | h
  · subst h
    have h2 := hmax secondFace (by simp)
    norm_num [exampleFace, secondFace] at h2
  · simpa using h

theorem secondFace_umur (nts : ℚ → String) : toFixed nts secondFace.age 1 = "41.0" := by
  have h0 : (0 : ℚ) ≤ secondFace.age := by norm_num [secondFace]
  have h21 : secondFace.age < 10 ^ 21 := by norm_num [secondFace]
  have hn : nearestScaled secondFace.age 1 = 410 := by
    have : secondFace.age * 10 ^ 1 + 1 / 2 = ((410 : ℤ) : ℚ) + 1 / 2 := by
      norm_num [secondFace]
    unfold nearestScaled
    rw [this]
    have hfl : Int.floor (((410 : ℤ) : ℚ) + 1 / 2) = 410 := by
      rw [Int.floor_eq_iff]
      constructor <;> norm_num
    rw [hfl]
    rfl
  rw [toFixed_of_nonneg nts _ 1 h0 h21, hn]
  decide

theorem pairFrame_reaches : pairFrame.reaches [exampleFace, secondFace] :=
  exampleFrame_reaches _ _

theorem run_startEvents_interval (nts : ℚ → String) :
    (run nts true startEvents).interval = some none := by
  rw [run_startEvents]; rfl

/-! ## The claims -/

/-- Claim C1: after a normal start, a tick that finds a face at time 0 stores that
face in `lastDetection` and shows it; the next tick, 33 ms later, finds no
face and sets `infoWajah` to `null`, so the panel shows the no-face message:
the installed `detectFace` still sees the `lastDetection` of the render that
installed it, which is `null`. -/
theorem grace_window_not_applied :
    (run (fun _ => "") true
      (startEvents ++ [.tick (exampleFrame [exampleFace] 0)])).state.lastDetection =
        some { exampleFace with timestamp := 0 } ∧
    (run (fun _ => "") true
      (startEvents ++ [.tick (exampleFrame [exampleFace] 0)])).state.infoWajah =
        some ⟨"30.3", "male", "happy"⟩ ∧
    (exampleFrame [] 33).now - 0 < 1000 ∧
    (run (fun _ => "") true
      (startEvents ++ [.tick (exampleFrame [exampleFace] 0)] ++
        [.tick (exampleFrame [] 33)])).state.infoWajah = none ∧
    panel (run (fun _ => "") true
      (startEvents ++ [.tick (exampleFrame [exampleFace] 0)] ++
        [.tick (exampleFrame [] 33)])).state =
      [⟨"text-gray-400 italic text-lg", "Tidak ada wajah terdeteksi."⟩] := by
  have h1 := run_first_face (fun _ => "")
  refine ⟨by rw [h1], by rw [h1], by decide, ?_⟩
  rw [run_snoc, h1,
    tick_none (fun _ => "") _ none (exampleFrame [] 33) rfl (exampleFrame_reaches _ _)
      (fun ld h => by simp at h)]
  exact ⟨rfl, rfl⟩

/-- Claim C2, counterexample: the camera is started before the models are
loaded, so the first tick fails inside the library and sets `error`; the
models then load. The next tick finds no face with nothing remembered: it
sets `infoWajah` to `null`, but the panel shows the error string, not the
no-face message. -/
theorem no_face_panel_counterexample :
    (run (fun _ => "") true earlyCameraEvents).interval = some none ∧
    (run (fun _ => "") true earlyCameraEvents).state.lastDetection = none ∧
    (exampleFrame [] 33).reaches [] ∧
    (run (fun _ => "") true
      (earlyCameraEvents ++ [.tick (exampleFrame [] 33)])).state.infoWajah = none ∧
    panel (run (fun _ => "") true
      (earlyCameraEvents ++ [.tick (exampleFrame [] 33)])).state =
        [⟨"text-red-400 text-lg", "Error deteksi wajah: load model before inference"⟩] ∧
    panel (run (fun _ => "") true
      (earlyCameraEvents ++ [.tick (exampleFrame [] 33)])).state ≠
        [⟨"text-gray-400 italic text-lg", "Tidak ada wajah terdeteksi."⟩] :=
  ⟨by decide, by decide, exampleFrame_reaches _ _, by decide, by decide, by decide⟩

/-- Claim C2, as amended: a tick of the installed timer that finds no face
while the `lastDetection` read by the running `detectFace` is absent or at
least 1000 ms old sets `infoWajah` to `null`. The panel rendered afterwards is
the error paragraph with the error string when `error` is displayed (set and
not empty), else the loading message while the models are loading, else the
no-face message; so it is the no-face message exactly when `error` is not
displayed and the models are loaded. -/
theorem no_face_clears_info (nts : ℚ → String) (c : Config) (cap : Option LastDetection)
    (f : Frame) (hi : c.interval = some cap) (hr : f.reaches [])
    (hold : cap = none ∨ ∃ ld, cap = some ld ∧ 1000 ≤ f.now - ld.timestamp) :
    (step nts c (.tick f)).state.infoWajah = none ∧
    (∀ msg, c.state.error = some msg → msg ≠ "" →
      panel (step nts c (.tick f)).state = [⟨"text-red-400 text-lg", msg⟩]) ∧
    (truthy c.state.error = false → c.state.isLoading = true →
      panel (step nts c (.tick f)).state =
        [⟨"text-yellow-400 text-lg", "Memuat model AI wajah..."⟩]) ∧
    (truthy c.state.error = false → c.state.isLoading = false →
      panel (step nts c (.tick f)).state =
        [⟨"text-gray-400 italic text-lg", "Tidak ada wajah terdeteksi."⟩]) ∧
    (panel (step nts c (.tick f)).state =
        [⟨"text-gray-400 italic text-lg", "Tidak ada wajah terdeteksi."⟩] ↔
      truthy c.state.error = false ∧ c.state.isLoading = false) := by
  have hold2 : ∀ ld, cap = some ld → 1000 ≤ f.now - ld.timestamp := by
    intro ld hld
    rcases hold with h | ⟨ld2, h, hage⟩
    · rw [h] at hld; exact absurd hld (by simp)
    · rw [h] at hld
      cases hld
      exact hage
  rw [tick_none nts c cap f hi hr hold2]
  refine ⟨rfl, ?_, ?_, ?_, ?_⟩
  · intro msg hmsg hne
    simp [panel, truthy, hmsg, hne]
  · intro hT hL
    simp [panel, hT, hL]
  · intro hT hL
    simp [panel, hT, hL]
  · cases hT : truthy c.state.error <;> cases hL : c.state.isLoading <;>
      simp [panel, hT, hL]

theorem no_face_clears_info_witness :
    ((run (fun _ => "") true
        (startEvents ++ [.tick (exampleFrame [exampleFace] 0)])).interval = some none ∧
      (exampleFrame [] 5000).reaches [] ∧
      (run (fun _ => "") true
        (startEvents ++ [.tick (exampleFrame [exampleFace] 0)])).state.infoWajah =
          some ⟨"30.3", "male", "happy"⟩ ∧
      (step (fun _ => "") (run (fun _ => "") true
          (startEvents ++ [.tick (exampleFrame [exampleFace] 0)]))
        (.tick (exampleFrame [] 5000))).state.infoWajah = none ∧
      panel (step (fun _ => "") (run (fun _ => "") true
          (startEvents ++ [.tick (exampleFrame [exampleFace] 0)]))
        (.tick (exampleFrame [] 5000))).state =
        [⟨"text-gray-400 italic text-lg", "Tidak ada wajah terdeteksi."⟩]) ∧
    ((run (fun _ => "") true earlyCameraEvents).interval = some none ∧
      (exampleFrame [] 33).reaches [] ∧
      (step (fun _ => "") (run (fun _ => "") true earlyCameraEvents)
        (.tick (exampleFrame [] 33))).state.infoWajah = none ∧
      panel (step (fun _ => "") (run (fun _ => "") true earlyCameraEvents)
        (.tick (exampleFrame [] 33))).state =
        [⟨"text-red-400 text-lg", "Error deteksi wajah: load model before inference"⟩]) ∧
    ((run (fun _ => "") true loadingEvents).interval = some none ∧
      (exampleFrame [] 33).reaches [] ∧
      (step (fun _ => "") (run (fun _ => "") true loadingEvents)
        (.tick (exampleFrame [] 33))).state.infoWajah = none ∧
      panel (step (fun _ => "") (run (fun _ => "") true loadingEvents)
        (.tick (exampleFrame [] 33))).state =
        [⟨"text-yellow-400 text-lg", "Memuat model AI wajah..."⟩]) := by
  have hi1 : (run (fun _ => "") true
      (startEvents ++ [.tick (exampleFrame [exampleFace] 0)])).interval = some none := by
    rw [run_first_face]; rfl
  have hinfo1 : (run (fun _ => "") true
      (startEvents ++ [.tick (exampleFrame [exampleFace] 0)])).state.infoWajah =
        some ⟨"30.3", "male", "happy"⟩ := by
    rw [run_first_face]
  have hE1 : truthy (run (fun _ => "") true
      (startEvents ++ [.tick (exampleFrame [exampleFace] 0)])).state.error = false := by
    rw [run_first_face]; rfl
  have hL1 : (run (fun _ => "") true
      (startEvents ++ [.tick (exampleFrame [exampleFace] 0)])).state.isLoading = false := by
    rw [run_first_face]; rfl
  have h1 := no_face_clears_info (fun _ => "")
    (run (fun _ => "") true (startEvents ++ [.tick (exampleFrame [exampleFace] 0)])) none
    (exampleFrame [] 5000) hi1 (exampleFrame_reaches _ _) (Or.inl rfl)
  have h2 := no_face_clears_info (fun _ => "") (run (fun _ => "") true earlyCameraEvents)
    none (exampleFrame [] 33) (by decide) (exampleFrame_reaches _ _) (Or.inl rfl)
  have h3 := no_face_clears_info (fun _ => "") (run (fun _ => "") true loadingEvents)
    none (exampleFrame [] 33) (by decide) (exampleFrame_reaches _ _) (Or.inl rfl)
  exact ⟨⟨hi1, exampleFrame_reaches _ _, hinfo1, h1.1, h1.2.2.2.1 hE1 hL1⟩,
    ⟨by decide, exampleFrame_reaches _ _, h2.1,
      h2.2.1 "Error deteksi wajah: load model before inference" (by decide) (by decide)⟩,
    ⟨by decide, exampleFrame_reaches _ _, h3.1, h3.2.2.1 (by decide) (by decide)⟩⟩

/-- Claim C3: whenever a run of `detectFace` shows a detection whose expression
mapping is non-empty (the top detection of the frame, or the remembered
detection inside the grace window), the `emosi` it stores in `infoWajah` is a
key of that mapping whose probability is at least that of every entry. -/
theorem emosi_is_argmax (nts : ℚ → String) (c : Config) (cap : Option LastDetection)
    (f : Frame) (ds : List Detection) (d : Detection)
    (hi : c.interval = some cap) (hr : f.reaches ds) (hdraw : f.drawError = none)
    (hshown : topDetection ds = some d ∨
      (ds = [] ∧ ∃ ld, cap = some ld ∧ f.now - ld.timestamp < 1000 ∧ ld.toDetection = d))
    (hne : d.expressions ≠ []) :
    ∃ i p, (step nts c (.tick f)).state.infoWajah = some i ∧
      (i.emosi, p) ∈ d.expressions ∧ ∀ e ∈ d.expressions, e.2 ≤ p := by
  obtain ⟨k, p, hinfo, hmem, hmax⟩ := tick_shown nts c cap f ds d hi hr hdraw hshown hne
  exact ⟨_, p, hinfo, hmem, hmax⟩

theorem emosi_is_argmax_witness :
    ((exampleConfig none).interval = some none ∧
      (exampleFrame [exampleFace] 0).reaches [exampleFace] ∧
      (exampleFrame [exampleFace] 0).drawError = none ∧
      topDetection [exampleFace] = some exampleFace ∧
      exampleFace.expressions ≠ [] ∧
      ∃ i p, (step (fun _ => "") (exampleConfig none)
          (.tick (exampleFrame [exampleFace] 0))).state.infoWajah = some i ∧
        (i.emosi, p) ∈ exampleFace.expressions ∧ ∀ e ∈ exampleFace.expressions, e.2 ≤ p) ∧
    ((exampleConfig (some { exampleFace with timestamp := 0 })).interval =
        some (some { exampleFace with timestamp := 0 }) ∧
      (exampleFrame [] 500).reaches [] ∧
      (exampleFrame [] 500).now - 0 < 1000 ∧
      ∃ i p, (step (fun _ => "") (exampleConfig (some { exampleFace with timestamp := 0 }))
          (.tick (exampleFrame [] 500))).state.infoWajah = some i ∧
        (i.emosi, p) ∈ exampleFace.expressions ∧ ∀ e ∈ exampleFace.expressions, e.2 ≤ p) :=
  ⟨⟨rfl, exampleFrame_reaches _ _, rfl, rfl, by simp [exampleFace],
      emosi_is_argmax (fun _ => "") (exampleConfig none) none (exampleFrame [exampleFace] 0)
        [exampleFace] exampleFace rfl (exampleFrame_reaches _ _) rfl (Or.inl rfl)
        (by simp [exampleFace])⟩,
    ⟨rfl, exampleFrame_reaches _ _, by decide,
      emosi_is_argmax (fun _ => "") (exampleConfig (some { exampleFace with timestamp := 0 }))
        (some { exampleFace with timestamp := 0 }) (exampleFrame [] 500) [] exampleFace rfl
        (exampleFrame_reaches _ _) rfl
        (Or.inr ⟨rfl, { exampleFace with timestamp := 0 }, rfl, by decide, rfl⟩)
        (by simp [exampleFace])⟩⟩

/-- Claim C4: when the detection call of a tick returns a non-empty list,
`detectFace` selects a member of the list whose score is at least the score
of every member, and whatever the tick writes is about that one detection:
`lastDetection` is left alone or becomes that detection with the current
time, every new shape on the canvas is a shape of it, and `infoWajah` is left
alone or holds its age, gender and an expression label. When the tick is not
skipped (refs set, `readyState` 4, 2D context) it does remember that
detection, the canvas holds nothing else, and when nothing throws the canvas
holds its box and landmarks and `infoWajah` holds its values. -/
theorem top_confidence_detection (nts : ℚ → String) (c : Config)
    (cap : Option LastDetection) (f : Frame) (ds : List Detection)
    (hi : c.interval = some cap) (hdet : f.detections = .ok ds) (hne : ds ≠ []) :
    ∃ d ∈ ds, (∀ x ∈ ds, x.detection.score ≤ d.detection.score) ∧
      ((step nts c (.tick f)).state.lastDetection = c.state.lastDetection ∨
        (step nts c (.tick f)).state.lastDetection = some { d with timestamp := f.now }) ∧
      (∀ sh ∈ (step nts c (.tick f)).canvas,
        sh ∈ c.canvas ∨ sh = .detectionBox d ∨ sh = .faceLandmarks d) ∧
      ((step nts c (.tick f)).state.infoWajah = c.state.infoWajah ∨
        ∃ k, (step nts c (.tick f)).state.infoWajah =
          some ⟨toFixed nts d.age 1, d.gender, k⟩) ∧
      (f.videoRef = true → f.canvasRef = true → f.readyState = 4 → f.ctx = true →
        (step nts c (.tick f)).state.lastDetection = some { d with timestamp := f.now } ∧
        (∀ sh ∈ (step nts c (.tick f)).canvas,
          sh = .detectionBox d ∨ sh = .faceLandmarks d) ∧
        (f.drawError = none →
          (step nts c (.tick f)).canvas = [.detectionBox d, .faceLandmarks d]) ∧
        (f.drawError = none → d.expressions ≠ [] →
          ∃ k, (step nts c (.tick f)).state.infoWajah =
            some ⟨toFixed nts d.age 1, d.gender, k⟩)) := by
  obtain ⟨d, ht⟩ := topDetection_of_ne_nil ds hne
  obtain ⟨hmem, hmax⟩ := topDetection_spec ds d ht
  have hlive : f.videoRef = true → f.canvasRef = true → f.readyState = 4 → f.ctx = true →
      (step nts c (.tick f)).state.lastDetection = some { d with timestamp := f.now } ∧
      (∀ sh ∈ (step nts c (.tick f)).canvas,
        sh = .detectionBox d ∨ sh = .faceLandmarks d) ∧
      (f.drawError = none →
        (step nts c (.tick f)).canvas = [.detectionBox d, .faceLandmarks d]) ∧
      (f.drawError = none → d.expressions ≠ [] →
        ∃ k, (step nts c (.tick f)).state.infoWajah =
          some ⟨toFixed nts d.age 1, d.gender, k⟩) := by
    intro h1 h2 h3 h5
    have hr : f.reaches ds := ⟨h1, h2, h3, hdet, h5⟩
    obtain ⟨hld, hcanvas, -⟩ := tick_found_lastDetection nts c cap f ds d hi hr ht
    refine ⟨hld, hcanvas, ?_, ?_⟩
    · intro hdraw
      cases hk : ekspresiDominan f.typeErrorMessage d.expressions <;>
        simp [step, hi, detectFace, h1, h2, h3, hdet, h5, ht, showDetection, hdraw, hk, perform,
          detectFaceCatch]
    · intro hdraw hexp
      obtain ⟨k, p, hinfo, -, -⟩ :=
        tick_shown nts c cap f ds d hi hr hdraw (Or.inl ht) hexp
      exact ⟨k, hinfo⟩
  refine ⟨d, hmem, hmax, ?_, ?_, ?_, hlive⟩
  · by_cases hg : f.videoRef = true ∧ f.canvasRef = true ∧ f.readyState = 4 ∧ f.ctx = true
    · exact Or.inr (hlive hg.1 hg.2.1 hg.2.2.1 hg.2.2.2).1
    · rw [tick_skipped nts c f ds hdet hg]; exact Or.inl rfl
  · by_cases hg : f.videoRef = true ∧ f.canvasRef = true ∧ f.readyState = 4 ∧ f.ctx = true
    · intro sh hsh
      exact Or.inr ((hlive hg.1 hg.2.1 hg.2.2.1 hg.2.2.2).2.1 sh hsh)
    · rw [tick_skipped nts c f ds hdet hg]
      exact fun sh hsh => Or.inl hsh
  · by_cases hg : f.videoRef = true ∧ f.canvasRef = true ∧ f.readyState = 4 ∧ f.ctx = true
    · by_cases hshow : f.drawError = none ∧ d.expressions ≠ []
      · exact Or.inr ((hlive hg.1 hg.2.1 hg.2.2.1 hg.2.2.2).2.2.2 hshow.1 hshow.2)
      · left
        have hr : f.reaches ds := ⟨hg.1, hg.2.1, hg.2.2.1, hdet, hg.2.2.2⟩
        refine (tick_found_lastDetection nts c cap f ds d hi hr ht).2.2 ?_
        by_cases hdraw : f.drawError = none
        · right
          by_contra hexp
          exact hshow ⟨hdraw, hexp⟩
        · exact Or.inl hdraw
    · rw [tick_skipped nts c f ds hdet hg]; exact Or.inl rfl

theorem top_confidence_detection_witness :
    (run (fun _ => "") true startEvents).interval = some none ∧
    pairFrame.detections = .ok [exampleFace, secondFace] ∧
    [exampleFace, secondFace] ≠ [] ∧
    exampleFace.detection.score < secondFace.detection.score ∧
    ∃ d ∈ [exampleFace, secondFace],
      (∀ x ∈ [exampleFace, secondFace], x.detection.score ≤ d.detection.score) ∧
      d = secondFace ∧
      (step (fun _ => "") (run (fun _ => "") true startEvents)
        (.tick pairFrame)).state.lastDetection = some { secondFace with timestamp := 0 } ∧
      (step (fun _ => "") (run (fun _ => "") true startEvents)
        (.tick pairFrame)).canvas = [.detectionBox secondFace, .faceLandmarks secondFace] ∧
      ∃ k, (step (fun _ => "") (run (fun _ => "") true startEvents)
        (.tick pairFrame)).state.infoWajah = some ⟨"41.0", "female", k⟩ := by
  refine ⟨run_startEvents_interval _, rfl, by simp, by norm_num [exampleFace, secondFace], ?_⟩
  obtain ⟨d, hmem, hmax, -, -, -, hlive⟩ :=
    top_confidence_detection (fun _ => "") (run (fun _ => "") true startEvents) none
      pairFrame [exampleFace, secondFace] (run_startEvents_interval _) rfl (by simp)
  obtain ⟨hld, -, hcanvas, hinfo⟩ := hlive rfl rfl rfl rfl
  have hd := top_of_pair d hmem hmax
  subst hd
  obtain ⟨k, hk⟩ := hinfo rfl (by simp [secondFace])
  refine ⟨secondFace, hmem, hmax, rfl, hld, hcanvas rfl, k, ?_⟩
  rw [hk, secondFace_umur]
  rfl

/-- Claim C5: when the camera request rejects with an error named
`NotAllowedError`, whatever its message, `startVideo` sets `error` to exactly
the permission-denied string, and that is not the generic string
`"Gagal mengakses kamera: "` followed by the message. -/
theorem permission_denied_message (nts : ℚ → String) (c : Config) (err : JsError)
    (hname : err.name = "NotAllowedError") :
    (step nts c (.cameraRejected err)).state.error =
        some "Izin kamera ditolak. Harap izinkan akses kamera di pengaturan browser." ∧
      (step nts c (.cameraRejected err)).state.error ≠
        some ("Gagal mengakses kamera: " ++ err.message) := by
  have h : (step nts c (.cameraRejected err)).state.error =
      some "Izin kamera ditolak. Harap izinkan akses kamera di pengaturan browser." := by
    simp only [step, commit, startVideoCatch, hname]
    split <;> rfl
  refine ⟨h, ?_⟩
  rw [h]
  intro hh
  exact izin_ne_gagal err.message (Option.some.inj hh)

theorem permission_denied_message_witness :
    (⟨"NotAllowedError", "Permission denied"⟩ : JsError).name = "NotAllowedError" ∧
    (step (fun _ => "") (Config.init true)
        (.cameraRejected ⟨"NotAllowedError", "Permission denied"⟩)).state.error =
      some "Izin kamera ditolak. Harap izinkan akses kamera di pengaturan browser." ∧
    (step (fun _ => "") (Config.init true)
        (.cameraRejected ⟨"NotAllowedError", "Permission denied"⟩)).state.error ≠
      some ("Gagal mengakses kamera: " ++
        (⟨"NotAllowedError", "Permission denied"⟩ : JsError).message) :=
  ⟨rfl, permission_denied_message (fun _ => "") (Config.init true)
    ⟨"NotAllowedError", "Permission denied"⟩ rfl⟩

/-- Claim C6: when a run of `detectFace` shows a detection whose age is a
rational with `0 ≤ age < 10 ^ 21` (on the fresh path or inside the grace
window), the string stored in `infoWajah.umur` is a numeral with exactly one
digit after the point; its value is `n / 10` for the natural number `n` that
makes `n / 10` nearest to the age, the larger `n` on a tie, hence within
`1 / 20` of the age. -/
theorem umur_rounded_to_one_decimal (nts : ℚ → String) (c : Config)
    (cap : Option LastDetection) (f : Frame) (ds : List Detection) (d : Detection)
    (hi : c.interval = some cap) (hr : f.reaches ds) (hdraw : f.drawError = none)
    (hshown : topDetection ds = some d ∨
      (ds = [] ∧ ∃ ld, cap = some ld ∧ f.now - ld.timestamp < 1000 ∧ ld.toDetection = d))
    (hne : d.expressions ≠ []) (h0 : 0 ≤ d.age) (h21 : d.age < 10 ^ 21) :
    ∃ (i : InfoWajah) (n : ℕ),
      (step nts c (.tick f)).state.infoWajah = some i ∧
      i.umur = String.mk (Nat.toDigits 10 (n / 10) ++ ['.', Nat.digitChar (n % 10)]) ∧
      readFixed1 i.umur = some ((n : ℚ) / 10) ∧
      |(n : ℚ) / 10 - d.age| ≤ 1 / 20 ∧
      (∀ m : ℤ, |(n : ℚ) / 10 - d.age| ≤ |(m : ℚ) / 10 - d.age|) ∧
      (∀ m : ℤ, |(m : ℚ) / 10 - d.age| = |(n : ℚ) / 10 - d.age| → m ≤ (n : ℤ)) := by
  obtain ⟨k, p, hinfo, -, -⟩ := tick_shown nts c cap f ds d hi hr hdraw hshown hne
  obtain ⟨hclose, hnear, htie⟩ := nearestScaled_nearest d.age h0
  refine ⟨_, nearestScaled d.age 1, hinfo, ?_, ?_, hclose, hnear, htie⟩
  · show toFixed nts d.age 1 = _
    rw [toFixed_of_nonneg nts d.age 1 h0 h21, fixedDigits_one]
  · show readFixed1 (toFixed nts d.age 1) = _
    rw [toFixed_of_nonneg nts d.age 1 h0 h21, readFixed1_fixedDigits]

theorem umur_rounded_to_one_decimal_witness :
    (exampleConfig none).interval = some none ∧
    (exampleFrame [exampleFace] 0).reaches [exampleFace] ∧
    (exampleFrame [exampleFace] 0).drawError = none ∧
    (topDetection [exampleFace] = some exampleFace ∨
      ([exampleFace] = [] ∧ ∃ ld, (none : Option LastDetection) = some ld ∧
        (exampleFrame [exampleFace] 0).now - ld.timestamp < 1000 ∧
        ld.toDetection = exampleFace)) ∧
    exampleFace.expressions ≠ [] ∧ 0 ≤ exampleFace.age ∧ exampleFace.age < 10 ^ 21 ∧
    ∃ (i : InfoWajah) (n : ℕ),
      (step (fun _ => "") (exampleConfig none)
        (.tick (exampleFrame [exampleFace] 0))).state.infoWajah = some i ∧
      i.umur = String.mk (Nat.toDigits 10 (n / 10) ++ ['.', Nat.digitChar (n % 10)]) ∧
      readFixed1 i.umur = some ((n : ℚ) / 10) ∧
      |(n : ℚ) / 10 - exampleFace.age| ≤ 1 / 20 ∧
      (∀ m : ℤ, |(n : ℚ) / 10 - exampleFace.age| ≤ |(m : ℚ) / 10 - exampleFace.age|) ∧
      (∀ m : ℤ, |(m : ℚ) / 10 - exampleFace.age| = |(n : ℚ) / 10 - exampleFace.age| →
        m ≤ (n : ℤ)) :=
  ⟨rfl, exampleFrame_reaches _ _, rfl, Or.inl rfl, by simp [exampleFace],
    by norm_num [exampleFace], by norm_num [exampleFace],
    umur_rounded_to_one_decimal (fun _ => "") (exampleConfig none) none
      (exampleFrame [exampleFace] 0) [exampleFace] exampleFace rfl (exampleFrame_reaches _ _)
      rfl (Or.inl rfl) (by simp [exampleFace]) (by norm_num [exampleFace])
      (by norm_num [exampleFace])⟩

/-- Claim C7: over every run of the component, `lastDetection` starts as `null`;
an event that is a tick of the installed timer whose detection call returns
a non-empty list overwrites it with a top-score member of that list and the
current time; every event that is not a face-finding tick (any other
handler, a skipped tick, a tick without a face, a tick whose detection call
rejects) leaves it unchanged; so it is never reset to `null`. -/
theorem lastDetection_invariant (nts : ℚ → String) (fa : Bool) (es : List Event)
    (e : Event) :
    (run nts fa []).state.lastDetection = none ∧
    (∀ f ds, e = .tick f → (run nts fa es).interval ≠ none → f.reaches ds → ds ≠ [] →
      ∃ d ∈ ds, (∀ x ∈ ds, x.detection.score ≤ d.detection.score) ∧
        (run nts fa (es ++ [e])).state.lastDetection =
          some { d with timestamp := f.now }) ∧
    ((∀ f ds, e = .tick f → f.reaches ds → ds = []) →
      (run nts fa (es ++ [e])).state.lastDetection =
        (run nts fa es).state.lastDetection) ∧
    ((run nts fa es).state.lastDetection ≠ none →
      (run nts fa (es ++ [e])).state.lastDetection ≠ none) := by
  rw [run_snoc]
  have hfound : ∀ f ds, e = .tick f → (run nts fa es).interval ≠ none → f.reaches ds →
      ds ≠ [] → ∃ d ∈ ds, (∀ x ∈ ds, x.detection.score ≤ d.detection.score) ∧
        (step nts (run nts fa es) e).state.lastDetection =
          some { d with timestamp := f.now } := by
    intro f ds he hi hr hne
    subst he
    obtain ⟨cap, hcap⟩ := Option.ne_none_iff_exists'.mp hi
    obtain ⟨d, ht⟩ := topDetection_of_ne_nil ds hne
    obtain ⟨hmem, hmax⟩ := topDetection_spec ds d ht
    exact ⟨d, hmem, hmax, (tick_found_lastDetection nts _ cap f ds d hcap hr ht).1⟩
  have hkeep : (∀ f ds, e = .tick f → f.reaches ds → ds = []) →
      (step nts (run nts fa es) e).state.lastDetection =
        (run nts fa es).state.lastDetection := by
    intro h
    by_cases he : ∃ f, e = .tick f
    · obtain ⟨f, rfl⟩ := he
      exact tick_lastDetection_unchanged nts _ f (fun ds hr => h f ds rfl hr)
    · exact (step_of_not_tick nts _ e (fun f hf => he ⟨f, hf⟩)).2.1
  refine ⟨rfl, hfound, hkeep, fun hsome => ?_⟩
  by_cases hpos : ∃ f ds, e = .tick f ∧ f.reaches ds ∧ ds ≠ []
  · obtain ⟨f, ds, he, hr, hne⟩ := hpos
    by_cases hi : (run nts fa es).interval = none
    · subst he
      rw [(tick_frame nts _ f).2.2.2.2.2.2.2 hi]
      exact hsome
    · obtain ⟨d, -, -, hld⟩ := hfound f ds he hi hr hne
      rw [hld]
      simp
  · rw [hkeep (fun f ds he hr => by
      by_contra hne
      exact hpos ⟨f, ds, he, hr, hne⟩)]
    exact hsome

theorem lastDetection_invariant_witness :
    (run (fun _ => "") true []).state.lastDetection = none ∧
    (run (fun _ => "") true startEvents).state.lastDetection = none ∧
    (run (fun _ => "") true startEvents).interval ≠ none ∧
    pairFrame.reaches [exampleFace, secondFace] ∧
    [exampleFace, secondFace] ≠ [] ∧
    (run (fun _ => "") true (startEvents ++ [.tick pairFrame])).state.lastDetection =
      some { secondFace with timestamp := 0 } ∧
    (run (fun _ => "") true
      ((startEvents ++ [.tick pairFrame]) ++ [.tick (exampleFrame [] 33)])).state.lastDetection =
      some { secondFace with timestamp := 0 } ∧
    (run (fun _ => "") true
      ((startEvents ++ [.tick pairFrame]) ++
        [.tick (failingFrame "network error" 33)])).state.lastDetection =
      some { secondFace with timestamp := 0 } ∧
    (run (fun _ => "") true
      ((startEvents ++ [.tick pairFrame]) ++
        [.playRejected ⟨"NotAllowedError", "play() failed"⟩])).state.lastDetection =
      some { secondFace with timestamp := 0 } ∧
    (run (fun _ => "") true
      ((startEvents ++ [.tick pairFrame]) ++ [.tick (exampleFrame [] 33)])).state.lastDetection ≠
      none := by
  have hi : (run (fun _ => "") true startEvents).interval ≠ none := by
    rw [run_startEvents_interval]; simp
  have h0 : (run (fun _ => "") true startEvents).state.lastDetection = none := by
    rw [run_startEvents]; rfl
  have hpair : (run (fun _ => "") true (startEvents ++ [.tick pairFrame])).state.lastDetection =
      some { secondFace with timestamp := 0 } := by
    obtain ⟨d, hmem, hmax, hld⟩ :=
      (lastDetection_invariant (fun _ => "") true startEvents (.tick pairFrame)).2.1
        pairFrame [exampleFace, secondFace] rfl hi pairFrame_reaches (by simp)
    have hd := top_of_pair d hmem hmax
    subst hd
    exact hld
  have hnoface : (run (fun _ => "") true
      ((startEvents ++ [.tick pairFrame]) ++ [.tick (exampleFrame [] 33)])).state.lastDetection =
      some { secondFace with timestamp := 0 } := by
    rw [(lastDetection_invariant (fun _ => "") true (startEvents ++ [Event.tick pairFrame])
      (Event.tick (exampleFrame [] 33))).2.2.1 (fun f ds he hr => by
        cases he
        have hdet := hr.2.2.2.1
        simp [exampleFrame] at hdet
        exact hdet), hpair]
  have hfail : (run (fun _ => "") true
      ((startEvents ++ [.tick pairFrame]) ++
        [.tick (failingFrame "network error" 33)])).state.lastDetection =
      some { secondFace with timestamp := 0 } := by
    rw [(lastDetection_invariant (fun _ => "") true (startEvents ++ [Event.tick pairFrame])
      (Event.tick (failingFrame "network error" 33))).2.2.1 (fun f ds he hr => by
        cases he
        have hdet := hr.2.2.2.1
        simp [failingFrame] at hdet), hpair]
  have hplay : (run (fun _ => "") true
      ((startEvents ++ [.tick pairFrame]) ++
        [.playRejected ⟨"NotAllowedError", "play() failed"⟩])).state.lastDetection =
      some { secondFace with timestamp := 0 } := by
    rw [(lastDetection_invariant (fun _ => "") true (startEvents ++ [Event.tick pairFrame])
      (Event.playRejected ⟨"NotAllowedError", "play() failed"⟩)).2.2.1 (fun f ds he hr => by
        cases he), hpair]
  have hkeep := (lastDetection_invariant (fun _ => "") true (startEvents ++ [Event.tick pairFrame])
    (Event.tick (exampleFrame [] 33))).2.2.2 (by rw [hpair]; simp)
  exact ⟨rfl, h0, hi, pairFrame_reaches, by simp, hpair, hnoface, hfail, hplay, hkeep⟩

/-- Claim C8: in every state reached by a run, an `error` that is set is a
non-empty string, and the panel is the single error paragraph with exactly
that string, whatever `isLoading` and `infoWajah` are. -/
theorem error_panel (nts : ℚ → String) (fa : Bool) (es : List Event) (msg : String)
    (h : (run nts fa es).state.error = some msg) :
    msg ≠ "" ∧
    ∀ (isLoading : Bool) (infoWajah : Option InfoWajah),
      panel { (run nts fa es).state with isLoading := isLoading, infoWajah := infoWajah } =
        [⟨"text-red-400 text-lg", msg⟩] := by
  have hne : msg ≠ "" := (run_inv nts fa es).2 msg h
  refine ⟨hne, fun isLoading infoWajah => ?_⟩
  simp [panel, truthy, h, hne]

theorem error_panel_witness :
    (run (fun _ => "") true
        [.mount true true, .modelsFailed ⟨"Error", "404"⟩]).state.error =
      some "Gagal memuat model: 404" ∧
    ("Gagal memuat model: 404" ≠ "" ∧
      ∀ (isLoading : Bool) (infoWajah : Option InfoWajah),
        panel { (run (fun _ => "") true
            [.mount true true, .modelsFailed ⟨"Error", "404"⟩]).state with
          isLoading := isLoading, infoWajah := infoWajah } =
          [⟨"text-red-400 text-lg", "Gagal memuat model: 404"⟩]) :=
  ⟨by decide, error_panel (fun _ => "") true
    [.mount true true, .modelsFailed ⟨"Error", "404"⟩] "Gagal memuat model: 404" (by decide)⟩

/-- Claim C9: the strings `startVideo` sets as `error` for a rejection named
`NotAllowedError`, for one named `NotFoundError`, and for one with any other
name (which is `"Gagal mengakses kamera: "` followed by the message) are
pairwise different, whatever the messages. -/
theorem camera_error_strings_distinct (nts : ℚ → String) (c : Config)
    (denied missing other : JsError)
    (h1 : denied.name = "NotAllowedError") (h2 : missing.name = "NotFoundError")
    (h3 : other.name ≠ "NotAllowedError") (h4 : other.name ≠ "NotFoundError") :
    (step nts c (.cameraRejected other)).state.error =
      some ("Gagal mengakses kamera: " ++ other.message) ∧
    (step nts c (.cameraRejected denied)).state.error ≠
      (step nts c (.cameraRejected missing)).state.error ∧
    (step nts c (.cameraRejected denied)).state.error ≠
      (step nts c (.cameraRejected other)).state.error ∧
    (step nts c (.cameraRejected missing)).state.error ≠
      (step nts c (.cameraRejected other)).state.error := by
  have hd : startVideoCatch denied =
      "Izin kamera ditolak. Harap izinkan akses kamera di pengaturan browser." := by
    simp [startVideoCatch, h1]
  have hm : startVideoCatch missing =
      "Tidak ada kamera yang ditemukan di perangkat ini." := by
    simp [startVideoCatch, h2]
  have ho : startVideoCatch other = "Gagal mengakses kamera: " ++ other.message := by
    simp [startVideoCatch, h3, h4]
  simp only [step_cameraRejected_error, hd, hm, ho, ne_eq, Option.some.injEq]
  exact ⟨trivial, by decide, izin_ne_gagal _, tidak_ne_gagal _⟩

theorem camera_error_strings_distinct_witness :
    (⟨"NotAllowedError", "Permission denied"⟩ : JsError).name = "NotAllowedError" ∧
    (⟨"NotFoundError", "Requested device not found"⟩ : JsError).name = "NotFoundError" ∧
    (⟨"AbortError", "Izin kamera ditolak."⟩ : JsError).name ≠ "NotAllowedError" ∧
    (⟨"AbortError", "Izin kamera ditolak."⟩ : JsError).name ≠ "NotFoundError" ∧
    ((step (fun _ => "") (Config.init true)
        (.cameraRejected ⟨"AbortError", "Izin kamera ditolak."⟩)).state.error =
      some ("Gagal mengakses kamera: " ++
        (⟨"AbortError", "Izin kamera ditolak."⟩ : JsError).message) ∧
    (step (fun _ => "") (Config.init true)
        (.cameraRejected ⟨"NotAllowedError", "Permission denied"⟩)).state.error ≠
      (step (fun _ => "") (Config.init true)
        (.cameraRejected ⟨"NotFoundError", "Requested device not found"⟩)).state.error ∧
    (step (fun _ => "") (Config.init true)
        (.cameraRejected ⟨"NotAllowedError", "Permission denied"⟩)).state.error ≠
      (step (fun _ => "") (Config.init true)
        (.cameraRejected ⟨"AbortError", "Izin kamera ditolak."⟩)).state.error ∧
    (step (fun _ => "") (Config.init true)
        (.cameraRejected ⟨"NotFoundError", "Requested device not found"⟩)).state.error ≠
      (step (fun _ => "") (Config.init true)
        (.cameraRejected ⟨"AbortError", "Izin kamera ditolak."⟩)).state.error) :=
  ⟨rfl, rfl, by decide, by decide,
    camera_error_strings_distinct (fun _ => "") (Config.init true)
      ⟨"NotAllowedError", "Permission denied"⟩ ⟨"NotFoundError", "Requested device not found"⟩
      ⟨"AbortError", "Izin kamera ditolak."⟩ rfl rfl (by decide) (by decide)⟩

/-- Claim C10: a run of `detectFace` that finds a face with a non-empty
expression mapping and throws nothing ends with `error = null` and with
`infoWajah` holding that face's age to one decimal, gender and dominant
expression, whatever `error` was before; when the models are loaded the
panel then shows the age, gender and expression lines. -/
theorem error_cleared_by_detection (nts : ℚ → String) (c : Config)
    (cap : Option LastDetection) (f : Frame) (ds : List Detection) (d : Detection)
    (hi : c.interval = some cap) (hr : f.reaches ds) (ht : topDetection ds = some d)
    (hdraw : f.drawError = none) (hne : d.expressions ≠ []) :
    ∃ k p, (k, p) ∈ d.expressions ∧ (∀ e ∈ d.expressions, e.2 ≤ p) ∧
      (step nts c (.tick f)).state.error = none ∧
      (step nts c (.tick f)).state.infoWajah = some ⟨toFixed nts d.age 1, d.gender, k⟩ ∧
      (c.state.isLoading = false →
        panel (step nts c (.tick f)).state =
          [⟨"text-lg", "Umur: " ++ toFixed nts d.age 1 ++ " tahun"⟩,
           ⟨"text-lg", "Jenis Kelamin: " ++
              (if d.gender = "male" then "Laki-laki" else "Perempuan")⟩,
           ⟨"text-lg", "Ekspresi: " ++ k⟩]) := by
  obtain ⟨k, p, hk, hmem, hmax⟩ := ekspresiDominan_spec f.typeErrorMessage d.expressions hne
  refine ⟨k, p, hmem, hmax, ?_⟩
  rw [tick_found nts c cap f ds d k hi hr ht hdraw hk]
  refine ⟨rfl, rfl, fun hload => ?_⟩
  simp [panel, truthy, hload]

theorem error_cleared_by_detection_witness :
    (erroredConfig "Error deteksi wajah: load model before inference").interval =
      some none ∧
    (erroredConfig "Error deteksi wajah: load model before inference").state.error ≠ none ∧
    (exampleFrame [exampleFace] 0).reaches [exampleFace] ∧
    topDetection [exampleFace] = some exampleFace ∧
    (exampleFrame [exampleFace] 0).drawError = none ∧
    exampleFace.expressions ≠ [] ∧
    ∃ k p, (k, p) ∈ exampleFace.expressions ∧ (∀ e ∈ exampleFace.expressions, e.2 ≤ p) ∧
      (step (fun _ => "") (erroredConfig "Error deteksi wajah: load model before inference")
        (.tick (exampleFrame [exampleFace] 0))).state.error = none ∧
      (step (fun _ => "") (erroredConfig "Error deteksi wajah: load model before inference")
        (.tick (exampleFrame [exampleFace] 0))).state.infoWajah =
          some ⟨toFixed (fun _ => "") exampleFace.age 1, exampleFace.gender, k⟩ ∧
      ((erroredConfig "Error deteksi wajah: load model before inference").state.isLoading =
          false →
        panel (step (fun _ => "")
            (erroredConfig "Error deteksi wajah: load model before inference")
            (.tick (exampleFrame [exampleFace] 0))).state =
          [⟨"text-lg", "Umur: " ++ toFixed (fun _ => "") exampleFace.age 1 ++ " tahun"⟩,
           ⟨"text-lg", "Jenis Kelamin: " ++
              (if exampleFace.gender = "male" then "Laki-laki" else "Perempuan")⟩,
           ⟨"text-lg", "Ekspresi: " ++ k⟩]) :=
  ⟨rfl, by simp [erroredConfig], exampleFrame_reaches _ _, rfl, rfl, by simp [exampleFace],
    error_cleared_by_detection (fun _ => "")
      (erroredConfig "Error deteksi wajah: load model before inference") none
      (exampleFrame [exampleFace] 0) [exampleFace] exampleFace rfl (exampleFrame_reaches _ _)
      rfl rfl (by simp [exampleFace])⟩

end FaceAiDetector
